import Mathlib

/-!
Shallow embedding of the OTP issuance/verification subsystem of
`src/app.py` (Flask backend, routes `/api/generate-otp` and
`/api/verify-otp`).

Modelling conventions:
* A parsed JSON field value is a `Jv`; Python truthiness (`not x`) and
  Python `==` against a stored string are embedded as `Jv.truthy` and
  `Jv.eqStr`.  `Jv.null` stands for an absent field (`data.get` returning
  `None`).
* `OTP_STORE` is a Python dict keyed by session-id strings; it is embedded
  as an association list with unique keys.  `storeGet` is `dict.get`,
  `storeSet` is dict item assignment (overwrites an existing key in place),
  `storeDel` is the `del` statement, which raises `KeyError` (modelled as
  `none`) when the key is absent.
* `time.time()` values are passed in as an explicit `now : Int`.
* `secrets.randbelow(900000)` and `uuid.uuid4()` draw from the OS
  entropy source; their raw draws are passed in as explicit parameters
  (`draw`, and the 128-bit integer fed to `uuid4_int`).
* `send_otp_email` performs SMTP network I/O; its boolean outcome is the
  explicit parameter `sendOk`.
-/

/-- A parsed JSON field value as Python sees it after `request.get_json()`.
`null` also stands for a missing field (`data.get` returns `None`). -/
inductive Jv where
  | null
  | bool (b : Bool)
  | num (n : Int)
  | str (s : String)
deriving DecidableEq

/-- Python truthiness of a JSON field value: `None`, `False`, `0` and `""`
are falsy, everything else truthy (embeds `if not x:`). -/
def Jv.truthy : Jv → Bool
  | .null => false
  | .bool b => b
  | .num n => n != 0
  | .str s => s != ""

/-- Python `==` between a JSON field value and a stored `str`: only a
string with the same characters compares equal; an `int`, `bool`, or
`None` is never `==` to a `str`. -/
def Jv.eqStr : Jv → String → Bool
  | .str s, t => s == t
  | _, _ => false

/-- One entry of `OTP_STORE`:
`{'otp': str(otp_code), 'email': email, 'expiry': expiry_time}`. -/
structure OtpRec where
  otp : String
  email : Jv
  expiry : Int
deriving DecidableEq

/-- `OTP_STORE`: a Python dict from session-id strings to records,
embedded as an association list whose keys are unique. -/
abbrev Store := List (String × OtpRec)

/-- `OTP_STORE.get(k)`: first (hence, keys being unique, only) binding. -/
def storeGet : Store → String → Option OtpRec
  | [], _ => none
  | (k₂, v) :: rest, k => if k₂ = k then some v else storeGet rest k

/-- `OTP_STORE[k] = v`: dict item assignment, replacing the binding in
place when the key exists and appending otherwise. -/
def storeSet : Store → String → OtpRec → Store
  | [], k, v => [(k, v)]
  | (k₂, v₂) :: rest, k, v =>
      if k₂ = k then (k, v) :: rest else (k₂, v₂) :: storeSet rest k v

/-- `del OTP_STORE[k]`: removes the binding for `k`; raises `KeyError`
(modelled as `none`) when `k` is absent.  On stores with unique keys,
filtering out every binding for `k` removes exactly the one binding. -/
def storeDel (s : Store) (k : String) : Option Store :=
  if storeGet s k = none then none
  else some (s.filter (fun e => e.1 != k))

/-- `OTP_EXPIRY_SECONDS = 300  # 5 minutes`. -/
def OTP_EXPIRY_SECONDS : Nat := 300

/-- Outcome of `/api/generate-otp` (JSON parsing assumed done). -/
inductive GenOut where
  /-- 400 `Missing 'email' field`. -/
  | missingEmail
  /-- 200 `{"status": "success", ..., "session_id", "expires_in_seconds"}`. -/
  | ok (sessionId : String) (expiresInSeconds : Nat)
  /-- 500 `{"status": "error", ...}` when `send_otp_email` failed. -/
  | sendFailed
deriving DecidableEq

/-- HTTP status code attached to each `generate-otp` outcome. -/
def GenOut.http : GenOut → Nat
  | .missingEmail => 400
  | .ok _ _ => 200
  | .sendFailed => 500

/-- `generate_otp_endpoint` (src/app.py lines 95-129), with the external
draws made explicit: `draw` is the value returned by
`secrets.randbelow(900000)`, `sessionId` is `str(uuid.uuid4())`, `now` is
`time.time()`, and `sendOk` is the success boolean of `send_otp_email`.
Returns the response outcome and the store after the call. -/
def generate_otp_endpoint (store : Store) (email : Jv) (draw : Nat)
    (sessionId : String) (now : Int) (sendOk : Bool) : GenOut × Store :=
  if !email.truthy then (.missingEmail, store)
  else
    let otp_code := draw + 100000
    let expiry_time := now + (OTP_EXPIRY_SECONDS : Int)
    let store₂ := storeSet store sessionId
      { otp := toString otp_code, email := email, expiry := expiry_time }
    if sendOk then (.ok sessionId OTP_EXPIRY_SECONDS, store₂)
    else (.sendFailed, store₂)

/-- Outcome of `/api/verify-otp` (JSON parsing assumed done). -/
inductive VOut where
  /-- 400 `Missing 'session_id' or 'otp_code'`. -/
  | missingFields
  /-- 404 `Invalid or expired session ID.` -/
  | sessionNotFound
  /-- 400 `OTP has expired. Please request a new one.` -/
  | expired
  /-- 200 `OTP verified successfully.` -/
  | success
  /-- 400 `Invalid OTP code.` -/
  | mismatch
  /-- 500: an uncaught `KeyError` from `del` on an absent key. -/
  | keyError
deriving DecidableEq

/-- HTTP status code attached to each `verify-otp` outcome. -/
def VOut.http : VOut → Nat
  | .missingFields => 400
  | .sessionNotFound => 404
  | .expired => 400
  | .success => 200
  | .mismatch => 400
  | .keyError => 500

/-- `verify_otp_endpoint` (src/app.py lines 132-159): field validation,
lookup, expiry check (which deletes), then exact `==` code check (which
deletes on success); a mismatch leaves the store untouched.  A non-string
`session_id` never equals any string dict key, so its lookup misses.
Returns the response outcome and the store after the call. -/
def verify_otp_endpoint (store : Store) (sessionId otpCode : Jv)
    (now : Int) : VOut × Store :=
  if !(sessionId.truthy && otpCode.truthy) then (.missingFields, store)
  else
    match sessionId with
    | .str sid =>
      match storeGet store sid with
      | none => (.sessionNotFound, store)
      | some r =>
        if now > r.expiry then
          match storeDel store sid with
          | some s₂ => (.expired, s₂)
          | none => (.keyError, store)
        else if otpCode.eqStr r.otp then
          match storeDel store sid with
          | some s₂ => (.success, s₂)
          | none => (.keyError, store)
        else (.mismatch, store)
    | _ => (.sessionNotFound, store)

/-!  Decimal rendering.  `Nat.repr` (what `toString`/Python `str` produce
for a natural number) is related below to `decChars`, a direct big-endian
digit-character list, so that exact length and injectivity can be proved. -/

/-- Big-endian decimal digit characters of `n` (reference form of the
decimal rendering used by `str(otp_code)`). -/
def decChars (n : Nat) : List Char :=
  if n < 10 then [Nat.digitChar n]
  else decChars (n / 10) ++ [Nat.digitChar (n % 10)]
termination_by n
decreasing_by simp_wf; omega

/-!  The 128-bit integer layout of `uuid.uuid4()`.  CPython builds
`UUID(bytes=os.urandom(16), version=4)`, which takes the 128-bit random
integer and forces the RFC 4122 variant bits (clears `0xc000 << 48`, sets
`0x8000 << 48`) and the version nibble (clears `0xf000 << 64`, sets
`4 << 76`).  Python's `x & ~mask` on this 128-bit value is embedded as
`x &&& (UUID_ONES ^^^ mask)`. -/

/-- All 128 bits set: the complement domain for the uuid masks. -/
def UUID_ONES : Nat := 2 ^ 128 - 1

/-- The integer value of `uuid.uuid4()` as a function of the 128-bit
random draw `n = int.from_bytes(os.urandom(16))`. -/
def uuid4_int (n : Nat) : Nat :=
  let n₁ := (n &&& (UUID_ONES ^^^ (0xc000 <<< 48))) ||| (0x8000 <<< 48)
  (n₁ &&& (UUID_ONES ^^^ (0xf000 <<< 64))) ||| (4 <<< 76)

/-- The 122 bit positions of a version-4 UUID that the random draw still
controls (all 128 except the 2 variant and 4 version bits). -/
def UUID_FREE_MASK : Nat := UUID_ONES ^^^ ((0xc000 <<< 48) ||| (0xf000 <<< 64))

/-- The 6 overwritten bit positions of a version-4 UUID. -/
def UUID_FIXED_MASK : Nat := (0xc000 <<< 48) ||| (0xf000 <<< 64)

/-- The values forced into the overwritten positions: variant `10`,
version `0100`. -/
def UUID_FIXED_BITS : Nat := (0x8000 <<< 48) ||| (4 <<< 76)

/-!  Interleaving model for two concurrent `verify-otp` requests on one
shared `OTP_STORE`.  CPython executes the individual dict operations
(`OTP_STORE.get`, `del OTP_STORE[k]`) atomically but may switch threads
between them, and the code takes no lock.  Each request is split at its
shared-store accesses: one atomic lookup step, then one atomic
check-and-delete step (the expiry and equality tests touch only the
thread-local record reference obtained by the lookup, so folding them
 into the step that follows them is sound). -/

/-- Program counter of one in-flight `verify_otp_endpoint` call:
before the lookup, after the lookup (holding the record reference that
`stored_otp_data` points to), or finished with an outcome. -/
inductive VPc where
  | start
  | gotRec (r : OtpRec)
  | done (out : VOut)
deriving DecidableEq

/-- One atomic step of a verify call for `(sid, code, now)`:
from `start`, perform the validation and the dict lookup; from `gotRec r`,
perform the expiry/equality tests on the local `r` and the corresponding
`del` (which raises `KeyError` if the other thread already deleted the
key).  A finished thread does not move. -/
def threadStep (sid : String) (code : Jv) (now : Int) :
    VPc → Store → VPc × Store
  | .start, store =>
      if !((Jv.str sid).truthy && code.truthy) then (.done .missingFields, store)
      else
        match storeGet store sid with
        | none => (.done .sessionNotFound, store)
        | some r => (.gotRec r, store)
  | .gotRec r, store =>
      if now > r.expiry then
        match storeDel store sid with
        | some s₂ => (.done .expired, s₂)
        | none => (.done .keyError, store)
      else if code.eqStr r.otp then
        match storeDel store sid with
        | some s₂ => (.done .success, s₂)
        | none => (.done .keyError, store)
      else (.done .mismatch, store)
  | .done o, store => (.done o, store)

/-- Shared store plus the two request threads `A` and `B`, both verifying
the same `(sid, code, now)`. -/
structure RaceState where
  store : Store
  pcA : VPc
  pcB : VPc
deriving DecidableEq

/-- Run one scheduler pick: `true` steps thread A, `false` thread B. -/
def raceStep (sid : String) (code : Jv) (now : Int) (pick : Bool)
    (st : RaceState) : RaceState :=
  if pick then
    let (pc₂, s₂) := threadStep sid code now st.pcA st.store
    { store := s₂, pcA := pc₂, pcB := st.pcB }
  else
    let (pc₂, s₂) := threadStep sid code now st.pcB st.store
    { store := s₂, pcA := st.pcA, pcB := pc₂ }

/-- Run a whole schedule (list of scheduler picks) from a state. -/
def raceRun (sid : String) (code : Jv) (now : Int) (sched : List Bool)
    (st : RaceState) : RaceState :=
  match sched with
  | [] => st
  | b :: rest => raceRun sid code now rest (raceStep sid code now b st)

/-! ### Store lemmas -/

/-- After filtering a key out, lookup of that key misses. -/
theorem storeGet_filter_self (s : Store) (k : String) :
    storeGet (s.filter (fun e => e.1 != k)) k = none := by
  induction s with
  | nil => rfl
  | cons e rest ih =>
    rw [List.filter_cons]
    by_cases h : e.1 = k
    · simpa [h] using ih
    · simpa [h, storeGet] using ih

/-- `del` succeeds on a key that a lookup just found. -/
theorem storeDel_of_get_some {s : Store} {k : String} {r : OtpRec}
    (h : storeGet s k = some r) :
    storeDel s k = some (s.filter (fun e => e.1 != k)) := by
  simp [storeDel, h]

/-- Lookup after dict item assignment finds the assigned record. -/
theorem storeGet_storeSet_self (s : Store) (k : String) (v : OtpRec) :
    storeGet (storeSet s k v) k = some v := by
  induction s with
  | nil => simp [storeSet, storeGet]
  | cons e rest ih =>
    by_cases h : e.1 = k
    · simp [storeSet, h, storeGet]
    · simpa [storeSet, h, storeGet] using ih

/-! ### Decimal rendering lemmas -/

/-- `Nat.toDigitsCore` with enough fuel produces exactly the big-endian
digit characters, prepended to the accumulator. -/
theorem toDigitsCore_eq_decChars (n : Nat) :
    ∀ (f : Nat) (acc : List Char), n < f →
      Nat.toDigitsCore 10 f n acc = decChars n ++ acc := by
  induction n using Nat.strong_induction_on with
  | _ n ih =>
    intro f acc hf
    match f with
    | 0 => omega
    | f + 1 =>
      by_cases h10 : n < 10
      · have hdiv : n / 10 = 0 := Nat.div_eq_of_lt h10
        have hmod : n % 10 = n := Nat.mod_eq_of_lt h10
        rw [decChars]
        simp [Nat.toDigitsCore, hdiv, hmod, h10]
      · have hdiv : ¬ n / 10 = 0 := by omega
        have hlt : n / 10 < n := Nat.div_lt_self (by omega) (by omega)
        rw [decChars]
        simp only [Nat.toDigitsCore, hdiv, if_false, if_neg h10]
        rw [ih (n / 10) hlt f (Nat.digitChar (n % 10) :: acc) (by omega)]
        simp

/-- `Nat.repr` is the big-endian digit characters, packed as a string. -/
theorem repr_eq_decChars (n : Nat) : Nat.repr n = (decChars n).asString := by
  rw [Nat.repr, Nat.toDigits,
    toDigitsCore_eq_decChars n (n + 1) [] (Nat.lt_succ_self n), List.append_nil]

/-- Exact digit count: a number in `[10^e, 10^(e+1))` has `e + 1` decimal
digit characters. -/
theorem decChars_length (e : Nat) :
    ∀ n, 10 ^ e ≤ n → n < 10 ^ (e + 1) → (decChars n).length = e + 1 := by
  induction e with
  | zero =>
    intro n _ h2
    rw [decChars, if_pos (by simpa using h2)]
    rfl
  | succ e ih =>
    intro n h1 h2
    have hge : ¬ n < 10 := by
      have : (10 : Nat) ^ 1 ≤ 10 ^ (e + 1) := Nat.pow_le_pow_right (by omega) (by omega)
      simp only [pow_one] at this
      omega
    have hd1 : 10 ^ e ≤ n / 10 := by
      rw [Nat.le_div_iff_mul_le (by omega)]
      calc 10 ^ e * 10 = 10 ^ (e + 1) := (pow_succ 10 e).symm
        _ ≤ n := h1
    have hd2 : n / 10 < 10 ^ (e + 1) := by
      rw [Nat.div_lt_iff_lt_mul (by omega)]
      calc n < 10 ^ (e + 1 + 1) := h2
        _ = 10 ^ (e + 1) * 10 := pow_succ 10 (e + 1)
    rw [decChars, if_neg hge]
    simp [ih (n / 10) hd1 hd2]

/-- Unfolding equation for `decChars` with its argument explicit. -/
theorem decChars_eq (n : Nat) :
    decChars n =
      if n < 10 then [Nat.digitChar n]
      else decChars (n / 10) ++ [Nat.digitChar (n % 10)] := by
  rw [decChars]

/-- `Nat.digitChar` is injective on single decimal digits. -/
theorem digitChar_injOn {m n : Nat} (hm : m < 10) (hn : n < 10)
    (h : Nat.digitChar m = Nat.digitChar n) : m = n := by
  interval_cases m <;> interval_cases n <;>
    first
    | rfl
    | exact absurd h (by decide)

/-- Every number has at least one decimal digit character. -/
theorem decChars_length_pos (n : Nat) : 0 < (decChars n).length := by
  rw [decChars]
  split <;> simp

/-- Big-endian decimal digit characters determine the number. -/
theorem decChars_inj (m : Nat) :
    ∀ n, decChars m = decChars n → m = n := by
  induction m using Nat.strong_induction_on with
  | _ m ih =>
    intro n h
    rw [decChars_eq m, decChars_eq n] at h
    by_cases hm : m < 10 <;> by_cases hn : n < 10
    · rw [if_pos hm, if_pos hn] at h
      injection h with h1 _
      exact digitChar_injOn hm hn h1
    · rw [if_pos hm, if_neg hn] at h
      have hlen := congrArg List.length h
      simp only [List.length_singleton, List.length_append] at hlen
      have hpos := decChars_length_pos (n / 10)
      omega
    · rw [if_neg hm, if_pos hn] at h
      have hlen := congrArg List.length h
      simp only [List.length_singleton, List.length_append] at hlen
      have hpos := decChars_length_pos (m / 10)
      omega
    · rw [if_neg hm, if_neg hn] at h
      have h₂ := congrArg List.reverse h
      simp only [List.reverse_append, List.reverse_singleton, List.singleton_append,
        List.cons.injEq] at h₂
      obtain ⟨hchar, hrev⟩ := h₂
      have htails : decChars (m / 10) = decChars (n / 10) :=
        List.reverse_injective hrev
      have hdiv : m / 10 = n / 10 :=
        ih (m / 10) (Nat.div_lt_self (by omega) (by omega)) (n / 10) htails
      have hmod : m % 10 = n % 10 :=
        digitChar_injOn (Nat.mod_lt _ (by omega)) (Nat.mod_lt _ (by omega)) hchar
      omega

/-- `toString` on `Nat` agrees with `Nat.repr`. -/
theorem natToString_eq_repr (n : Nat) : toString n = Nat.repr n := rfl

/-- The decimal string of a number in `[100000, 999999]` has exactly six
characters (in particular, no leading-zero truncation occurs). -/
theorem natToString_length_six {c : Nat} (h1 : 100000 ≤ c) (h2 : c ≤ 999999) :
    (toString c).length = 6 := by
  rw [natToString_eq_repr, repr_eq_decChars]
  have : ((decChars c).asString).length = (decChars c).length := rfl
  rw [this]
  exact decChars_length 5 c (by omega) (by omega)

/-- Distinct naturals render to distinct decimal strings. -/
theorem natToString_inj {m n : Nat} (h : toString m = toString n) : m = n := by
  rw [natToString_eq_repr, natToString_eq_repr, repr_eq_decChars,
    repr_eq_decChars] at h
  exact decChars_inj m n (congrArg String.data h)

/-! ### uuid4 bit lemmas -/

/-- The variant clear-mask is bits 62 and 63. -/
theorem vmask_eq : (0xc000 <<< 48 : Nat) = 2 ^ 62 ||| 2 ^ 63 := by decide

/-- The variant set-value is bit 63. -/
theorem vset_eq : (0x8000 <<< 48 : Nat) = 2 ^ 63 := by decide

/-- The version clear-mask is bits 76 to 79. -/
theorem vermask_eq :
    (0xf000 <<< 64 : Nat) = 2 ^ 76 ||| (2 ^ 77 ||| (2 ^ 78 ||| 2 ^ 79)) := by
  decide

/-- The version set-value is bit 78. -/
theorem verset_eq : (4 <<< 76 : Nat) = 2 ^ 78 := by decide

/-- `uuid4_int` keeps the 122 free bits of the draw and forces the 6
variant/version bits. -/
theorem uuid4_int_eq_or (n : Nat) :
    uuid4_int n = (n &&& UUID_FREE_MASK) ||| UUID_FIXED_BITS := by
  apply Nat.eq_of_testBit_eq
  intro i
  simp only [uuid4_int, UUID_FREE_MASK, UUID_FIXED_BITS, UUID_ONES,
    vmask_eq, vset_eq, vermask_eq, verset_eq,
    Nat.testBit_lor, Nat.testBit_land, Nat.testBit_xor,
    Nat.testBit_two_pow_sub_one, Nat.testBit_two_pow]
  by_cases h62 : 62 = i <;> by_cases h63 : 63 = i <;>
    by_cases h76 : 76 = i <;> by_cases h77 : 77 = i <;>
    by_cases h78 : 78 = i <;> by_cases h79 : 79 = i <;>
    by_cases hlt : i < 128 <;>
    first
    | (simp_all; done)
    | (simp_all <;> (exfalso; omega))
    | (exfalso; omega)

/-- Masking a `uuid4_int` down to the free positions recovers the free
bits of the draw. -/
theorem uuid4_int_land_free (n : Nat) :
    uuid4_int n &&& UUID_FREE_MASK = n &&& UUID_FREE_MASK := by
  rw [uuid4_int_eq_or]
  apply Nat.eq_of_testBit_eq
  intro i
  simp only [UUID_FREE_MASK, UUID_FIXED_BITS, UUID_ONES,
    vmask_eq, vset_eq, vermask_eq, verset_eq,
    Nat.testBit_lor, Nat.testBit_land, Nat.testBit_xor,
    Nat.testBit_two_pow_sub_one, Nat.testBit_two_pow]
  by_cases h62 : 62 = i <;> by_cases h63 : 63 = i <;>
    by_cases h76 : 76 = i <;> by_cases h77 : 77 = i <;>
    by_cases h78 : 78 = i <;> by_cases h79 : 79 = i <;>
    by_cases hlt : i < 128 <;>
    first
    | (simp_all; done)
    | (simp_all <;> (exfalso; omega))
    | (exfalso; omega)

/-- The 6 variant/version positions of every `uuid4_int` hold the fixed
values `10` (variant) and `0100` (version 4). -/
theorem uuid4_int_land_fixed (n : Nat) :
    uuid4_int n &&& UUID_FIXED_MASK = UUID_FIXED_BITS := by
  rw [uuid4_int_eq_or]
  apply Nat.eq_of_testBit_eq
  intro i
  simp only [UUID_FREE_MASK, UUID_FIXED_MASK, UUID_FIXED_BITS, UUID_ONES,
    vmask_eq, vset_eq, vermask_eq, verset_eq,
    Nat.testBit_lor, Nat.testBit_land, Nat.testBit_xor,
    Nat.testBit_two_pow_sub_one, Nat.testBit_two_pow]
  by_cases h62 : 62 = i <;> by_cases h63 : 63 = i <;>
    by_cases h76 : 76 = i <;> by_cases h77 : 77 = i <;>
    by_cases h78 : 78 = i <;> by_cases h79 : 79 = i <;>
    by_cases hlt : i < 128 <;>
    first
    | (simp_all; done)
    | (simp_all <;> (exfalso; omega))
    | (exfalso; omega)

/-! ### Verification helper lemmas -/

/-- A non-empty string field is truthy. -/
theorem Jv.truthy_str {s : String} (h : s ≠ "") : (Jv.str s).truthy = true := by
  simp [Jv.truthy, h]

/-- Python `==` against a stored string holds exactly for the equal string
value. -/
theorem Jv.eqStr_true_iff {v : Jv} {t : String} :
    v.eqStr t = true ↔ v = .str t := by
  cases v <;> simp [Jv.eqStr]

/-- If a lookup finds a record, `verify_otp_endpoint` can only report
success when the submitted code is exactly the stored string. -/
theorem verify_success_imp {store : Store} {sid : String} {r : OtpRec}
    (hget : storeGet store sid = some r) (code : Jv) (now : Int)
    (h : (verify_otp_endpoint store (.str sid) code now).1 = .success) :
    code = Jv.str r.otp := by
  by_cases h1 : ((Jv.str sid).truthy && code.truthy) = true
  · by_cases h2 : now > r.expiry
    · simp [verify_otp_endpoint, h1, hget, h2, storeDel_of_get_some hget] at h
    · by_cases h3 : code.eqStr r.otp = true
      · exact Jv.eqStr_true_iff.mp h3
      · simp [verify_otp_endpoint, h1, hget, h2, h3] at h
  · simp [verify_otp_endpoint, h1] at h

/-! ### Claim theorems: verification path -/

/-- C1: for an issued record, verifying with the correct code strictly
before `expires_at` succeeds (HTTP 200) and deletes the record, and every
subsequent well-formed verify call with the same session id fails with
`SessionNotFound` (HTTP 404). -/
theorem verify_correct_code_succeeds_once (store : Store) (sid : String)
    (r : OtpRec) (now : Int)
    (hget : storeGet store sid = some r) (hsid : sid ≠ "")
    (hotp : r.otp ≠ "") (hnow : now < r.expiry) :
    (verify_otp_endpoint store (.str sid) (.str r.otp) now).1 = .success ∧
    (verify_otp_endpoint store (.str sid) (.str r.otp) now).1.http = 200 ∧
    storeGet (verify_otp_endpoint store (.str sid) (.str r.otp) now).2 sid
      = none ∧
    ∀ (code : Jv) (now₂ : Int), code.truthy = true →
      (verify_otp_endpoint
          (verify_otp_endpoint store (.str sid) (.str r.otp) now).2
          (.str sid) code now₂).1 = .sessionNotFound ∧
      (verify_otp_endpoint
          (verify_otp_endpoint store (.str sid) (.str r.otp) now).2
          (.str sid) code now₂).1.http = 404 := by
  have hexp : ¬ now > r.expiry := by omega
  have hrun : verify_otp_endpoint store (.str sid) (.str r.otp) now
      = (.success, store.filter (fun e => e.1 != sid)) := by
    simp [verify_otp_endpoint, Jv.truthy_str hsid, Jv.truthy_str hotp,
      hget, hexp, Jv.eqStr, storeDel_of_get_some hget]
  refine ⟨by rw [hrun], by rw [hrun]; rfl, ?_, ?_⟩
  · rw [hrun]
    exact storeGet_filter_self store sid
  · intro code now₂ hc
    rw [hrun]
    constructor
    · simp [verify_otp_endpoint, Jv.truthy_str hsid, hc,
        storeGet_filter_self store sid]
    · simp [verify_otp_endpoint, Jv.truthy_str hsid, hc,
        storeGet_filter_self store sid, VOut.http]

/-- C2: for an issued record, a well-formed verify call strictly after
`expires_at` — whatever the submitted code, including the correct one —
fails with `Expired` (HTTP 400) and removes the record; the expiry check
runs before the code-equality check. -/
theorem verify_after_expiry_expired_and_removed (store : Store)
    (sid : String) (r : OtpRec) (code : Jv) (now : Int)
    (hget : storeGet store sid = some r) (hsid : sid ≠ "")
    (hc : code.truthy = true) (hnow : now > r.expiry) :
    (verify_otp_endpoint store (.str sid) code now).1 = .expired ∧
    (verify_otp_endpoint store (.str sid) code now).1.http = 400 ∧
    storeGet (verify_otp_endpoint store (.str sid) code now).2 sid
      = none := by
  have hrun : verify_otp_endpoint store (.str sid) code now
      = (.expired, store.filter (fun e => e.1 != sid)) := by
    simp [verify_otp_endpoint, Jv.truthy_str hsid, hc, hget, hnow,
      storeDel_of_get_some hget]
  refine ⟨by rw [hrun], by rw [hrun]; rfl, ?_⟩
  rw [hrun]
  exact storeGet_filter_self store sid

/-- C3: for an issued record and any well-formed submitted code other
than the exact stored string, a verify call before expiry fails with
`CodeMismatch` (HTTP 400) and leaves the store completely unchanged, and
success is possible exactly for the stored string itself. -/
theorem verify_wrong_code_mismatch_retryable (store : Store) (sid : String)
    (r : OtpRec) (code : Jv) (now : Int)
    (hget : storeGet store sid = some r) (hsid : sid ≠ "")
    (hotp : r.otp ≠ "") (hc : code.truthy = true)
    (hne : code ≠ .str r.otp) (hnow : now < r.expiry) :
    (verify_otp_endpoint store (.str sid) code now).1 = .mismatch ∧
    (verify_otp_endpoint store (.str sid) code now).1.http = 400 ∧
    (verify_otp_endpoint store (.str sid) code now).2 = store ∧
    ∀ code₂ : Jv,
      ((verify_otp_endpoint store (.str sid) code₂ now).1 = .success ↔
        code₂ = .str r.otp) := by
  have hexp : ¬ now > r.expiry := by omega
  have hneq : code.eqStr r.otp = false := by
    cases hv : code.eqStr r.otp
    · rfl
    · exact absurd (Jv.eqStr_true_iff.mp hv) hne
  have hrun : verify_otp_endpoint store (.str sid) code now
      = (.mismatch, store) := by
    simp [verify_otp_endpoint, Jv.truthy_str hsid, hc, hget, hexp, hneq]
  refine ⟨by rw [hrun], by rw [hrun]; rfl, by rw [hrun], ?_⟩
  intro code₂
  constructor
  · exact verify_success_imp hget code₂ now
  · rintro rfl
    simp [verify_otp_endpoint, Jv.truthy_str hsid, Jv.truthy_str hotp,
      hget, hexp, Jv.eqStr, storeDel_of_get_some hget]

/-- C10: the stored code is a string and the comparison is Python `==`
with no coercion: any non-zero submitted JSON number — in particular one
whose digits equal the stored code — fails with `CodeMismatch` before
expiry, and for every stored record only the exact string form of the
code can ever verify successfully. -/
theorem verify_no_type_coercion (store : Store) (sid : String) (r : OtpRec)
    (now : Int) (hget : storeGet store sid = some r) (hsid : sid ≠ "")
    (hnow : ¬ now > r.expiry) :
    (∀ n : Int, n ≠ 0 →
      (verify_otp_endpoint store (.str sid) (.num n) now).1 = .mismatch ∧
      (verify_otp_endpoint store (.str sid) (.num n) now).1.http = 400) ∧
    (∀ (code : Jv) (now₂ : Int),
      (verify_otp_endpoint store (.str sid) code now₂).1 = .success →
      code = .str r.otp) := by
  constructor
  · intro n hn
    have hc : (Jv.num n).truthy = true := by simp [Jv.truthy, hn]
    have hrun : verify_otp_endpoint store (.str sid) (.num n) now
        = (.mismatch, store) := by
      simp [verify_otp_endpoint, Jv.truthy_str hsid, hc, hget, hnow,
        Jv.eqStr]
    exact ⟨by rw [hrun], by rw [hrun]; rfl⟩
  · intro code now₂ h
    exact verify_success_imp hget code now₂ h

/-! ### Claim theorems: issuance path -/

/-- C4 counterexample: issuing into a store that already holds the same
session id does not fail with any duplicate-session error — the call
reports plain success (HTTP 200) and the old record is silently replaced
by the new one. -/
theorem put_duplicate_overwrites_cex :
    generate_otp_endpoint [("s", ⟨"111111", .str "old@x", 50⟩)]
        (.str "new@x") 23456 "s" 100 true
      = (.ok "s" 300, [("s", ⟨"123456", .str "new@x", 400⟩)]) ∧
    (GenOut.ok "s" 300).http = 200 ∧
    (⟨"123456", .str "new@x", 400⟩ : OtpRec) ≠ ⟨"111111", .str "old@x", 50⟩ := by
  refine ⟨by rfl, rfl, by decide⟩

/-- C4 (amended): when the session id is already present, the
issuance-time insert silently overwrites the existing record; the call
reports no duplicate error (it returns 200 on delivery success and the
store maps the id to the freshly generated record). -/
theorem put_duplicate_silent_overwrite (store : Store) (email : Jv)
    (draw : Nat) (sid : String) (now : Int) (sendOk : Bool) (rOld : OtpRec)
    (hdup : storeGet store sid = some rOld) (he : email.truthy = true) :
    (generate_otp_endpoint store email draw sid now sendOk).1
      ≠ .missingEmail ∧
    (sendOk = true →
      (generate_otp_endpoint store email draw sid now sendOk).1
        = .ok sid OTP_EXPIRY_SECONDS ∧
      (generate_otp_endpoint store email draw sid now sendOk).1.http
        = 200) ∧
    storeGet (generate_otp_endpoint store email draw sid now sendOk).2 sid
      = some ⟨toString (draw + 100000), email,
          now + (OTP_EXPIRY_SECONDS : Int)⟩ := by
  cases sendOk <;>
    simp [generate_otp_endpoint, he, storeGet_storeSet_self, GenOut.http]

/-- C6: when the mail sender reports delivery failure, the issuance call
reports failure (HTTP 500) to the caller, yet the freshly created record
stays in the store with its full expiry `now + 300`. -/
theorem send_failure_500_record_remains (store : Store) (email : Jv)
    (draw : Nat) (sid : String) (now : Int) (he : email.truthy = true) :
    (generate_otp_endpoint store email draw sid now false).1
      = .sendFailed ∧
    (generate_otp_endpoint store email draw sid now false).1.http = 500 ∧
    storeGet (generate_otp_endpoint store email draw sid now false).2 sid
      = some ⟨toString (draw + 100000), email,
          now + (OTP_EXPIRY_SECONDS : Int)⟩ := by
  simp [generate_otp_endpoint, he, storeGet_storeSet_self, GenOut.http]

/-- C7: the generated code `secrets.randbelow(900000) + 100000` lies in
`[100000, 999999]`; it is stored as its decimal string, which has exactly
six characters (no leading-zero truncation), and the map from the uniform
draw to the stored string is injective, so the stored strings are
uniformly distributed over the 6-digit range. -/
theorem otp_code_six_digit_uniform (store : Store) (email : Jv)
    (draw : Nat) (sid : String) (now : Int) (sendOk : Bool)
    (he : email.truthy = true) (hdraw : draw < 900000) :
    100000 ≤ draw + 100000 ∧ draw + 100000 ≤ 999999 ∧
    storeGet (generate_otp_endpoint store email draw sid now sendOk).2 sid
      = some ⟨toString (draw + 100000), email,
          now + (OTP_EXPIRY_SECONDS : Int)⟩ ∧
    (toString (draw + 100000)).length = 6 ∧
    ∀ draw₂ : Nat, draw₂ < 900000 →
      toString (draw₂ + 100000) = toString (draw + 100000) →
      draw₂ = draw := by
  refine ⟨by omega, by omega, ?_, ?_, ?_⟩
  · cases sendOk <;>
      simp [generate_otp_endpoint, he, storeGet_storeSet_self]
  · exact natToString_length_six (by omega) (by omega)
  · intro draw₂ _ hstr
    have := natToString_inj hstr
    omega

/-- C8: the stored record expires exactly `OTP_EXPIRY_SECONDS = 300`
seconds after issuance time, and a successful issuance reports this TTL
to the caller as `expires_in_seconds`. -/
theorem ttl_300_expiry_and_response (store : Store) (email : Jv)
    (draw : Nat) (sid : String) (now : Int) (he : email.truthy = true) :
    OTP_EXPIRY_SECONDS = 300 ∧
    storeGet (generate_otp_endpoint store email draw sid now true).2 sid
      = some ⟨toString (draw + 100000), email, now + 300⟩ ∧
    (generate_otp_endpoint store email draw sid now true).1
      = .ok sid OTP_EXPIRY_SECONDS := by
  refine ⟨rfl, ?_, ?_⟩
  · have h300 : ((OTP_EXPIRY_SECONDS : Nat) : Int) = 300 := rfl
    simp [generate_otp_endpoint, he, storeGet_storeSet_self, h300]
  · simp [generate_otp_endpoint, he]

/-! ### Claim theorems: concurrency and session-id randomness -/

/-- C5 counterexample: from a store holding one valid record, the
interleaving A-lookup, B-lookup, A-delete, B-delete of two verify calls
with the same session id and the correct code ends with thread A
succeeding and thread B raising `KeyError` (HTTP 500) — not
`SessionNotFound` — so the store does not serialize the
lookup-then-delete sequence. -/
theorem race_both_lookup_keyError_cex :
    (raceRun "s" (.str "123456") 10 [true, false, true, false]
        ⟨[("s", ⟨"123456", .str "u@x", 300⟩)], .start, .start⟩).pcA
      = .done .success ∧
    (raceRun "s" (.str "123456") 10 [true, false, true, false]
        ⟨[("s", ⟨"123456", .str "u@x", 300⟩)], .start, .start⟩).pcB
      = .done .keyError ∧
    VOut.keyError ≠ VOut.sessionNotFound ∧
    VOut.keyError.http = 500 := by
  refine ⟨by rfl, by rfl, by decide, rfl⟩

/-- C5 (amended): the store itself provides no serialization.  When the
scheduler happens to serialize the two verify calls (one completes before
the other starts), exactly one succeeds and the other observes
`SessionNotFound`; but under the interleaving in which both calls perform
their lookup before either deletes, one succeeds and the other raises
`KeyError` (HTTP 500) instead of observing `SessionNotFound`. -/
theorem race_serialized_vs_unserialized (store : Store) (sid : String)
    (r : OtpRec) (now : Int)
    (hget : storeGet store sid = some r) (hsid : sid ≠ "")
    (hotp : r.otp ≠ "") (hnow : ¬ now > r.expiry) :
    ((raceRun sid (.str r.otp) now [true, true, false, false]
        ⟨store, .start, .start⟩).pcA = .done .success ∧
     (raceRun sid (.str r.otp) now [true, true, false, false]
        ⟨store, .start, .start⟩).pcB = .done .sessionNotFound) ∧
    ((raceRun sid (.str r.otp) now [true, false, true, false]
        ⟨store, .start, .start⟩).pcA = .done .success ∧
     (raceRun sid (.str r.otp) now [true, false, true, false]
        ⟨store, .start, .start⟩).pcB = .done .keyError) := by
  have htr : ((Jv.str sid).truthy && (Jv.str r.otp).truthy) = true := by
    simp [Jv.truthy_str hsid, Jv.truthy_str hotp]
  have hstep1 : threadStep sid (.str r.otp) now .start store
      = (.gotRec r, store) := by
    simp [threadStep, htr, hget]
  have hdelStore : storeDel store sid
      = some (store.filter (fun e => e.1 != sid)) :=
    storeDel_of_get_some hget
  have hstep2 : threadStep sid (.str r.otp) now (.gotRec r) store
      = (.done .success, store.filter (fun e => e.1 != sid)) := by
    simp [threadStep, hnow, Jv.eqStr, hdelStore]
  have hgetF : storeGet (store.filter (fun e => e.1 != sid)) sid = none :=
    storeGet_filter_self store sid
  have hstepF1 : threadStep sid (.str r.otp) now .start
      (store.filter (fun e => e.1 != sid))
      = (.done .sessionNotFound, store.filter (fun e => e.1 != sid)) := by
    simp [threadStep, htr, hgetF]
  have hstepF2 : threadStep sid (.str r.otp) now (.gotRec r)
      (store.filter (fun e => e.1 != sid))
      = (.done .keyError, store.filter (fun e => e.1 != sid)) := by
    simp [threadStep, hnow, Jv.eqStr, storeDel, hgetF]
  have hdone : ∀ (o : VOut) (s : Store),
      threadStep sid (.str r.otp) now (.done o) s = (.done o, s) :=
    fun o s => rfl
  constructor
  · constructor <;>
      simp [raceRun, raceStep, hstep1, hstep2, hstepF1, hdone]
  · constructor <;>
      simp [raceRun, raceStep, hstep1, hstep2, hstepF2, hdone]

/-- C9 counterexample: two distinct 128-bit random draws produce the same
`uuid4` session token (the version nibble of the draw is discarded), so
the issued token does not carry 128 bits of randomness. -/
theorem uuid4_not_injective_cex :
    uuid4_int 0 = uuid4_int (2 ^ 76) ∧ (0 : Nat) ≠ 2 ^ 76 ∧
    (2 ^ 76 : Nat) < 2 ^ 128 := by
  refine ⟨by decide, by decide, by decide⟩

/-- C9 (amended): the session token is a version-4 UUID: its value is
determined by — and injective in — exactly the 122 free bits of the
128-bit draw, while the remaining 6 bit positions always hold the fixed
variant `10` and version `0100` values; collision probability over
consecutive issuances is that of 122 uniform random bits. -/
theorem uuid4_exactly_122_random_bits : ∀ n m : Nat,
    (uuid4_int n = uuid4_int m ↔
      n &&& UUID_FREE_MASK = m &&& UUID_FREE_MASK) ∧
    uuid4_int n &&& UUID_FIXED_MASK = UUID_FIXED_BITS := by
  intro n m
  refine ⟨⟨fun h => ?_, fun h => ?_⟩, uuid4_int_land_fixed n⟩
  · have h₂ := congrArg (fun x => x &&& UUID_FREE_MASK) h
    simpa [uuid4_int_land_free] using h₂
  · rw [uuid4_int_eq_or, uuid4_int_eq_or, h]

/-! ### Witnesses: each hypothesis-bearing claim theorem applied at a
concrete input. -/

/-- Witness for C1 at a concrete issued record. -/
theorem verify_correct_code_succeeds_once_witness :
    storeGet [("s", ⟨"123456", .str "u@x", 300⟩)] "s"
      = some ⟨"123456", .str "u@x", 300⟩ ∧
    ("s" : String) ≠ "" ∧ ("123456" : String) ≠ "" ∧ (10 : Int) < 300 ∧
    ((verify_otp_endpoint [("s", ⟨"123456", .str "u@x", 300⟩)]
        (.str "s") (.str "123456") 10).1 = .success ∧
     (verify_otp_endpoint [("s", ⟨"123456", .str "u@x", 300⟩)]
        (.str "s") (.str "123456") 10).1.http = 200 ∧
     storeGet (verify_otp_endpoint [("s", ⟨"123456", .str "u@x", 300⟩)]
        (.str "s") (.str "123456") 10).2 "s" = none ∧
     ∀ (code : Jv) (now₂ : Int), code.truthy = true →
       (verify_otp_endpoint
           (verify_otp_endpoint [("s", ⟨"123456", .str "u@x", 300⟩)]
             (.str "s") (.str "123456") 10).2
           (.str "s") code now₂).1 = .sessionNotFound ∧
       (verify_otp_endpoint
           (verify_otp_endpoint [("s", ⟨"123456", .str "u@x", 300⟩)]
             (.str "s") (.str "123456") 10).2
           (.str "s") code now₂).1.http = 404) :=
  ⟨rfl, by decide, by decide, by decide,
    verify_correct_code_succeeds_once [("s", ⟨"123456", .str "u@x", 300⟩)]
      "s" ⟨"123456", .str "u@x", 300⟩ 10 rfl (by decide) (by decide)
      (by decide)⟩

/-- Witness for C2: expired record, correct code submitted. -/
theorem verify_after_expiry_expired_and_removed_witness :
    storeGet [("s", ⟨"123456", .str "u@x", 300⟩)] "s"
      = some ⟨"123456", .str "u@x", 300⟩ ∧
    ("s" : String) ≠ "" ∧ (Jv.str "123456").truthy = true ∧
    (400 : Int) > 300 ∧
    ((verify_otp_endpoint [("s", ⟨"123456", .str "u@x", 300⟩)]
        (.str "s") (.str "123456") 400).1 = .expired ∧
     (verify_otp_endpoint [("s", ⟨"123456", .str "u@x", 300⟩)]
        (.str "s") (.str "123456") 400).1.http = 400 ∧
     storeGet (verify_otp_endpoint [("s", ⟨"123456", .str "u@x", 300⟩)]
        (.str "s") (.str "123456") 400).2 "s" = none) :=
  ⟨rfl, by decide, by decide, by decide,
    verify_after_expiry_expired_and_removed
      [("s", ⟨"123456", .str "u@x", 300⟩)] "s"
      ⟨"123456", .str "u@x", 300⟩ (.str "123456") 400 rfl (by decide)
      (by decide) (by decide)⟩

/-- Witness for C3: wrong code before expiry. -/
theorem verify_wrong_code_mismatch_retryable_witness :
    storeGet [("s", ⟨"123456", .str "u@x", 300⟩)] "s"
      = some ⟨"123456", .str "u@x", 300⟩ ∧
    ("s" : String) ≠ "" ∧ ("123456" : String) ≠ "" ∧
    (Jv.str "999999").truthy = true ∧
    Jv.str "999999" ≠ .str "123456" ∧ (10 : Int) < 300 ∧
    ((verify_otp_endpoint [("s", ⟨"123456", .str "u@x", 300⟩)]
        (.str "s") (.str "999999") 10).1 = .mismatch ∧
     (verify_otp_endpoint [("s", ⟨"123456", .str "u@x", 300⟩)]
        (.str "s") (.str "999999") 10).1.http = 400 ∧
     (verify_otp_endpoint [("s", ⟨"123456", .str "u@x", 300⟩)]
        (.str "s") (.str "999999") 10).2
        = [("s", ⟨"123456", .str "u@x", 300⟩)] ∧
     ∀ code₂ : Jv,
       ((verify_otp_endpoint [("s", ⟨"123456", .str "u@x", 300⟩)]
           (.str "s") code₂ 10).1 = .success ↔
         code₂ = .str "123456")) :=
  ⟨rfl, by decide, by decide, by decide, by decide, by decide,
    verify_wrong_code_mismatch_retryable
      [("s", ⟨"123456", .str "u@x", 300⟩)] "s"
      ⟨"123456", .str "u@x", 300⟩ (.str "999999") 10 rfl (by decide)
      (by decide) (by decide) (by decide) (by decide)⟩

/-- Witness for C10: a numeric code with the right digits still
mismatches. -/
theorem verify_no_type_coercion_witness :
    storeGet [("s", ⟨"123456", .str "u@x", 300⟩)] "s"
      = some ⟨"123456", .str "u@x", 300⟩ ∧
    ("s" : String) ≠ "" ∧ ¬ (10 : Int) > 300 ∧
    ((∀ n : Int, n ≠ 0 →
      (verify_otp_endpoint [("s", ⟨"123456", .str "u@x", 300⟩)]
          (.str "s") (.num n) 10).1 = .mismatch ∧
      (verify_otp_endpoint [("s", ⟨"123456", .str "u@x", 300⟩)]
          (.str "s") (.num n) 10).1.http = 400) ∧
    (∀ (code : Jv) (now₂ : Int),
      (verify_otp_endpoint [("s", ⟨"123456", .str "u@x", 300⟩)]
          (.str "s") code now₂).1 = .success →
      code = .str "123456")) :=
  ⟨rfl, by decide, by decide,
    verify_no_type_coercion [("s", ⟨"123456", .str "u@x", 300⟩)] "s"
      ⟨"123456", .str "u@x", 300⟩ 10 rfl (by decide) (by decide)⟩

/-- Witness for the amended C4: duplicate id silently overwritten. -/
theorem put_duplicate_silent_overwrite_witness :
    storeGet [("s", ⟨"111111", .str "old@x", 50⟩)] "s"
      = some ⟨"111111", .str "old@x", 50⟩ ∧
    (Jv.str "new@x").truthy = true ∧
    ((generate_otp_endpoint [("s", ⟨"111111", .str "old@x", 50⟩)]
        (.str "new@x") 23456 "s" 100 true).1 ≠ .missingEmail ∧
     (true = true →
      (generate_otp_endpoint [("s", ⟨"111111", .str "old@x", 50⟩)]
          (.str "new@x") 23456 "s" 100 true).1
        = .ok "s" OTP_EXPIRY_SECONDS ∧
      (generate_otp_endpoint [("s", ⟨"111111", .str "old@x", 50⟩)]
          (.str "new@x") 23456 "s" 100 true).1.http = 200) ∧
     storeGet (generate_otp_endpoint [("s", ⟨"111111", .str "old@x", 50⟩)]
        (.str "new@x") 23456 "s" 100 true).2 "s"
      = some ⟨toString (23456 + 100000), .str "new@x",
          100 + (OTP_EXPIRY_SECONDS : Int)⟩) :=
  ⟨rfl, by decide,
    put_duplicate_silent_overwrite [("s", ⟨"111111", .str "old@x", 50⟩)]
      (.str "new@x") 23456 "s" 100 true ⟨"111111", .str "old@x", 50⟩ rfl
      (by decide)⟩

/-- Witness for C6: failed delivery, record still stored. -/
theorem send_failure_500_record_remains_witness :
    (Jv.str "u@x").truthy = true ∧
    ((generate_otp_endpoint [] (.str "u@x") 23456 "s" 100 false).1
      = .sendFailed ∧
     (generate_otp_endpoint [] (.str "u@x") 23456 "s" 100 false).1.http
      = 500 ∧
     storeGet (generate_otp_endpoint [] (.str "u@x") 23456 "s" 100
        false).2 "s"
      = some ⟨toString (23456 + 100000), .str "u@x",
          100 + (OTP_EXPIRY_SECONDS : Int)⟩) :=
  ⟨by decide,
    send_failure_500_record_remains [] (.str "u@x") 23456 "s" 100
      (by decide)⟩

/-- Witness for C7 at a concrete draw. -/
theorem otp_code_six_digit_uniform_witness :
    (Jv.str "u@x").truthy = true ∧ 23456 < 900000 ∧
    (100000 ≤ 23456 + 100000 ∧ 23456 + 100000 ≤ 999999 ∧
     storeGet (generate_otp_endpoint [] (.str "u@x") 23456 "s" 100
        true).2 "s"
      = some ⟨toString (23456 + 100000), .str "u@x",
          100 + (OTP_EXPIRY_SECONDS : Int)⟩ ∧
     (toString (23456 + 100000)).length = 6 ∧
     ∀ draw₂ : Nat, draw₂ < 900000 →
       toString (draw₂ + 100000) = toString (23456 + 100000) →
       draw₂ = 23456) :=
  ⟨by decide, by decide,
    otp_code_six_digit_uniform [] (.str "u@x") 23456 "s" 100 true
      (by decide) (by decide)⟩

/-- Witness for C8 at a concrete issuance. -/
theorem ttl_300_expiry_and_response_witness :
    (Jv.str "u@x").truthy = true ∧
    (OTP_EXPIRY_SECONDS = 300 ∧
     storeGet (generate_otp_endpoint [] (.str "u@x") 23456 "s" 100
        true).2 "s"
      = some ⟨toString (23456 + 100000), .str "u@x", 100 + 300⟩ ∧
     (generate_otp_endpoint [] (.str "u@x") 23456 "s" 100 true).1
      = .ok "s" OTP_EXPIRY_SECONDS) :=
  ⟨by decide,
    ttl_300_expiry_and_response [] (.str "u@x") 23456 "s" 100
      (by decide)⟩

/-- Witness for the amended C5 at a concrete record and schedules. -/
theorem race_serialized_vs_unserialized_witness :
    storeGet [("s", ⟨"123456", .str "u@x", 300⟩)] "s"
      = some ⟨"123456", .str "u@x", 300⟩ ∧
    ("s" : String) ≠ "" ∧ ("123456" : String) ≠ "" ∧
    ¬ (10 : Int) > 300 ∧
    (((raceRun "s" (.str "123456") 10 [true, true, false, false]
        ⟨[("s", ⟨"123456", .str "u@x", 300⟩)], .start, .start⟩).pcA
        = .done .success ∧
      (raceRun "s" (.str "123456") 10 [true, true, false, false]
        ⟨[("s", ⟨"123456", .str "u@x", 300⟩)], .start, .start⟩).pcB
        = .done .sessionNotFound) ∧
     ((raceRun "s" (.str "123456") 10 [true, false, true, false]
        ⟨[("s", ⟨"123456", .str "u@x", 300⟩)], .start, .start⟩).pcA
        = .done .success ∧
      (raceRun "s" (.str "123456") 10 [true, false, true, false]
        ⟨[("s", ⟨"123456", .str "u@x", 300⟩)], .start, .start⟩).pcB
        = .done .keyError)) :=
  ⟨rfl, by decide, by decide, by decide,
    race_serialized_vs_unserialized [("s", ⟨"123456", .str "u@x", 300⟩)]
      "s" ⟨"123456", .str "u@x", 300⟩ 10 rfl (by decide) (by decide)
      (by decide)⟩
